import Mathlib

/-! Verification development for the tool-dispatch and conversation-state core of
the AI-assistant repository.

The definitions below are a shallow embedding of the Python modules

  * `src/tool_base/tool_base.py`   (the `Tool` contract, `AnswerDict`)
  * `src/tool_creator/create.py`   (`_get_subkwargs`, `_get_attributes`, `create_tools`)
  * `src/tool_loader/loader.py`    (`ToolLoader.load_tools`)
  * `src/chat_assistant.py`        (`Assistant.get_attributes_from_tool_call_message`,
                                    `Assistant.handle_tools`, `Assistant.chat_with_tool`)
  * `src/tools/wikipedia_fact_checker.py` and `src/tools/recipe_creator.py`
                                   (the `run_tool` argument-validation paths)

Python dictionaries are embedded as association lists (`List (String × _)`),
Python exceptions as an `Except PyError _` result, and mutation of
`self.history` as explicit state passing.  External boundaries (the OpenAI
chat/responses endpoints and the standard-library `json.loads`) are taken as
function parameters: theorems quantify over every possible behaviour of those
collaborators.
-/

set_option autoImplicit false

namespace AIAssistant

/-- Embedding of a Python value as stored in parsed-JSON dictionaries and
dependency bags (strings, numbers, booleans, `None`, lists, dicts). -/
inductive PyValue where
  | str (s : String)
  | int (n : Int)
  | bool (b : Bool)
  | none
  | list (xs : List PyValue)
  | dict (xs : List (String × PyValue))

/-- Embedding of the Python exceptions the embedded code can raise:
`KeyError(key)` from a dict lookup, `AssertionError` from an `assert`,
`json.decoder.JSONDecodeError` from `json.loads`, and a catch-all for
other runtime faults (`TypeError`, `IndexError`, ...). -/
inductive PyError where
  | keyError (key : String)
  | assertionError
  | jsonDecodeError (msg : String)
  | other (msg : String)
deriving DecidableEq

/-- First-match lookup in an association list, the embedding of a Python
dict read `d[k]` (Python dict keys are unique, so first match is the match). -/
def lookupStr {α : Type} (d : List (String × α)) (k : String) : Option α :=
  match d with
  | [] => Option.none
  | (k', v) :: rest => if k' = k then Option.some v else lookupStr rest k

/-- Python dict assignment `d[k] = v`: if the key is present its value is
replaced in place, otherwise the pair is appended at the end (Python dicts
preserve insertion order and keep the original position on overwrite). -/
def dictInsert {α : Type} (d : List (String × α)) (k : String) (v : α) :
    List (String × α) :=
  if (d.map Prod.fst).contains k then
    d.map (fun p => if p.1 = k then (k, v) else p)
  else
    d ++ [(k, v)]

/-- Embedding of `AnswerDict` from `tool_base.py`: the minimal answer structure returned by
tools, a dict with at least the key `answer_str`; `extra` carries any
tool-specific additional keys (for example `recipes`). -/
structure AnswerDict where
  answer_str : String
  extra : List (String × PyValue) := []

/-- Embedding of `ToolDict` from `tool_base.py`: the static metadata dict each tool exposes
via its `tool_dict` attribute.  The `parameters` schema is carried opaquely as
a `PyValue`; the dispatch core only ever forwards it to the model endpoint. -/
structure ToolDict where
  type : String
  name : String
  description : String
  parameters : PyValue

/-- A live tool instance (the result of constructing a concrete `Tool`
subclass): its `tool_dict` metadata, its `group` tag (default "general" in
`tool_base.py`), and its `run_tool` method.  `run_tool` may perform external
I/O and may raise, so it is embedded as a function into `Except`. -/
structure ToolInstance where
  tool_dict : ToolDict
  group : String
  run_tool : List (String × PyValue) → Except PyError AnswerDict

/-- A registered tool class as seen by `create_tools`:
`ctorParams` is the list of constructor parameter names obtained by
`inspect.signature` (in declaration order, `self` excluded), and `construct`
is the embedding of calling the class with a keyword-argument dict. -/
structure ToolClass where
  ctorParams : List String
  construct : List (String × PyValue) → ToolInstance

/-! Embedding of `src/tool_creator/create.py`. -/

/-- Embedding of `_get_subkwargs(kwargs, keys)`: the dict comprehension
`{key: kwargs[key] for key in keys}`.  A key absent from `kwargs` makes the
lookup `kwargs[key]` raise `KeyError(key)`, which propagates to the caller. -/
def _get_subkwargs (kwargs : List (String × PyValue)) (keys : List String) :
    Except PyError (List (String × PyValue)) :=
  match keys with
  | [] => Except.ok []
  | key :: rest =>
    match lookupStr kwargs key with
    | Option.none => Except.error (PyError.keyError key)
    | Option.some v => do
      let tail ← _get_subkwargs kwargs rest
      Except.ok ((key, v) :: tail)

/-- Embedding of `_get_attributes(class_to_inspect)`:
`list(inspect.signature(class_to_inspect).parameters)`, the constructor
parameter names of the class. -/
def _get_attributes (class_to_inspect : ToolClass) : List String :=
  class_to_inspect.ctorParams

/-- The body of one iteration of the `create_tools` loop:
`keys = _get_attributes(cls); filtered_kwargs = _get_subkwargs(kwargs, keys);
obj = cls(**filtered_kwargs)`. -/
def instantiate (kwargs : List (String × PyValue)) (cls : ToolClass) :
    Except PyError ToolInstance := do
  let keys := _get_attributes cls
  let filtered_kwargs ← _get_subkwargs kwargs keys
  Except.ok (cls.construct filtered_kwargs)

/-- The `for cls in registry` loop of `create_tools`, with the accumulator
dict `initialized_objects` made explicit.  Each iteration instantiates the
class and stores it under `obj.tool_dict["name"]`. -/
def create_tools_go (registry : List ToolClass)
    (kwargs : List (String × PyValue))
    (initialized_objects : List (String × ToolInstance)) :
    Except PyError (List (String × ToolInstance)) :=
  match registry with
  | [] => Except.ok initialized_objects
  | cls :: rest => do
    let obj ← instantiate kwargs cls
    create_tools_go rest kwargs (dictInsert initialized_objects obj.tool_dict.name obj)

/-- Embedding of `create_tools(**kwargs)` from `src/tool_creator/create.py`: instantiate
every class in the registry, keyed by declared tool name.  An uncaught
`KeyError` from `_get_subkwargs` aborts the whole construction. -/
def create_tools (registry : List ToolClass)
    (kwargs : List (String × PyValue)) :
    Except PyError (List (String × ToolInstance)) :=
  create_tools_go registry kwargs []

/-! Embedding of `src/tool_loader/loader.py`. -/

/-- Embedding of `ToolLoader.load_tools(list_of_loaded_groups)`: the loop
`for tool_name, tool in self.all_available_tools.items(): if tool.group in
list_of_loaded_groups: loaded_tools[tool_name] = tool`.  Source-dict keys are
unique, so appending in iteration order embeds the dict build faithfully. -/
def load_tools (all_available_tools : List (String × ToolInstance))
    (list_of_loaded_groups : List String) : List (String × ToolInstance) :=
  match all_available_tools with
  | [] => []
  | (tool_name, tool) :: rest =>
    if list_of_loaded_groups.contains tool.group then
      (tool_name, tool) :: load_tools rest list_of_loaded_groups
    else
      load_tools rest list_of_loaded_groups

/-! Embedding of `src/tools/wikipedia_fact_checker.py` and `src/tools/recipe_creator.py`. -/

mutual

/-- Python `repr` of an embedded value (used by `str` for lists and dicts):
strings are quoted, `True` / `False` / `None` capitalised, containers
rendered recursively in insertion order. -/
def pyRepr : PyValue → String
  | PyValue.str s => "\x27" ++ s ++ "\x27"
  | PyValue.int n => toString n
  | PyValue.bool b => cond b ( "True") "False"
  | PyValue.none => "None"
  | PyValue.list xs => "[" ++ String.intercalate ( ", ") (pyReprList xs) ++ "]"
  | PyValue.dict xs => "\x7b" ++ String.intercalate ( ", ") (pyReprDict xs) ++ "\x7d"
  termination_by v => sizeOf v

/-- Rendering by `repr` of each element of an embedded Python list. -/
def pyReprList : List PyValue → List String
  | [] => []
  | v :: vs => pyRepr v :: pyReprList vs
  termination_by l => sizeOf l

/-- Rendering by `repr` of each key-value entry of an embedded Python dict. -/
def pyReprDict : List (String × PyValue) → List String
  | [] => []
  | (k, v) :: vs => ( "\x27" ++ k ++ "\x27: " ++ pyRepr v) :: pyReprDict vs
  termination_by l => sizeOf l

end

/-- Python `str()` as used by f-string interpolation: a string renders as its
own content, everything else as its `repr`. -/
def pyToStr : PyValue → String
  | PyValue.str s => s
  | v => pyRepr v

/-- Python subscript `v[k]` with a string key on a parsed-JSON value: a dict
lookup raises `KeyError` when the key is absent; subscripting a non-dict
value with a string key raises a `TypeError`. -/
def pyDictGet (v : PyValue) (k : String) : Except PyError PyValue :=
  match v with
  | PyValue.dict d =>
    match lookupStr d k with
    | Option.some x => Except.ok x
    | Option.none => Except.error (PyError.keyError k)
  | _ => Except.error (PyError.other ( "TypeError"))

/-- Python `v == s` for a string literal `s`: true exactly when `v` is that
string. -/
def pyEqStr (v : PyValue) (s : String) : Bool :=
  match v with
  | PyValue.str t => t == s
  | _ => false

/-- The external collaborators of a web-search tool: `create` is the
`self._openai.responses.create` call followed by `get_response_text`
(prompt-specific input text ↦ raw model output), and `jsonLoadsClean` is
`json.loads(self._clean_up_str(...))` — the stdlib JSON parse composed with
the markdown-fence-stripping regex, both operating on external model text. -/
structure ResponsesOracle where
  create : String → String
  jsonLoadsClean : String → Except PyError PyValue

/-- Embedding of `WikipediaFactCheckerTool._create_answer(answer_dict)`: map the
`article_answers_question` status to the human-readable `answer_str`. -/
def wikipedia_create_answer (answer_dict : PyValue) : Except PyError AnswerDict := do
  let aaq ← pyDictGet answer_dict ( "article_answers_question")
  if pyEqStr aaq ( "NoArticleFound") then
    Except.ok { answer_str := "No relevant Wikipedia article found to answer the question." }
  else if pyEqStr aaq ( "Inconclusive") then do
    let ans ← pyDictGet answer_dict ( "answer")
    let link ← pyDictGet answer_dict ( "wikipedia_link")
    let msg := "Found a Wikipedia article but it does not conclusively answer the question. \nClosest Answer: "
      ++ pyToStr ans ++ "\nLink: " ++ pyToStr link
    Except.ok { answer_str := msg }
  else do
    let ans ← pyDictGet answer_dict ( "answer")
    let link ← pyDictGet answer_dict ( "wikipedia_link")
    Except.ok { answer_str := pyToStr ans ++ "\nSource: " ++ pyToStr link }

/-- Embedding of `WikipediaFactCheckerTool.run_tool(**kwargs)`:
`question = kwargs["question"]` (raises `KeyError` when absent), then
`assert isinstance(question, str)` (raises `AssertionError` when mistyped),
then the external web-search call; a `JSONDecodeError` from parsing the model
output is caught and returned as an error-shaped answer carrying the raw
text; a parsed `None` yields the no-result answer; otherwise
`_create_answer` runs on the parsed dict. -/
def wikipedia_run_tool (oracle : ResponsesOracle)
    (kwargs : List (String × PyValue)) : Except PyError AnswerDict :=
  match lookupStr kwargs ( "question") with
  | Option.none => Except.error (PyError.keyError ( "question"))
  | Option.some question =>
    match question with
    | PyValue.str q =>
      let result_str := oracle.create q
      match oracle.jsonLoadsClean result_str with
      | Except.error _ =>
        Except.ok { answer_str := "Could not parse response: " ++ result_str }
      | Except.ok parsed =>
        match parsed with
        | PyValue.none => Except.ok { answer_str := "No result returned from model." }
        | result => wikipedia_create_answer result
    | _ => Except.error PyError.assertionError

/-- The loop body of `RecipeSuggestTool.create_answer`: for each recipe,
the f-string appending the numbered recipe title (f-strings accept
any value via `str()`), then the concatenation of the advertisment field
(string concatenation, raising `TypeError` on a non-string), with a
`"\n\n"` separator between recipes. -/
def recipe_answer_go (total : Nat) : List PyValue → Nat → Except PyError String
  | [], _ => Except.ok ( "")
  | recipe :: rest, index => do
    let title ← pyDictGet recipe ( "title")
    let desc ← pyDictGet recipe ( "description_and_advertisment")
    let descStr ←
      match desc with
      | PyValue.str d => Except.ok d
      | _ => Except.error (PyError.other ( "TypeError"))
    let sep := if index + 1 < total then ( "\n\n") else ( "")
    let tail ← recipe_answer_go total rest (index + 1)
    Except.ok ( "Recipe " ++ toString (index + 1) ++ ": " ++ pyToStr title ++ " \n\n"
      ++ descStr ++ sep ++ tail)

/-- Embedding of `RecipeSuggestTool.create_answer(suggested_recipes)`: build the summary
string over the parsed recipe list and package it with the original list.
A parsed value that is not a list of dicts fails with a `TypeError` /
`KeyError` when the loop subscripts it (iteration over a non-list composite
is collapsed to the `TypeError` it ends in). -/
def recipe_create_answer (suggested_recipes : PyValue) : Except PyError AnswerDict :=
  match suggested_recipes with
  | PyValue.list rs => do
    let answer ← recipe_answer_go rs.length rs 0
    Except.ok { answer_str := answer, extra := [( "recipes", PyValue.list rs)] }
  | _ => Except.error (PyError.other ( "TypeError"))

/-- Embedding of `RecipeSuggestTool.run_tool(**kwargs)`:
`description_recipe = kwargs["description_recipe"]` (raises `KeyError` when
absent), then `assert isinstance(description_recipe, str)` (raises
`AssertionError` when mistyped), then the external web-search call; a
`JSONDecodeError` from parsing the model output is caught and returned as an
error-shaped answer (with an empty recipe list) carrying the raw text. -/
def recipe_run_tool (oracle : ResponsesOracle)
    (kwargs : List (String × PyValue)) : Except PyError AnswerDict :=
  match lookupStr kwargs ( "description_recipe") with
  | Option.none => Except.error (PyError.keyError ( "description_recipe"))
  | Option.some description_recipe =>
    match description_recipe with
    | PyValue.str d =>
      let recipe_list_str := oracle.create d
      match oracle.jsonLoadsClean recipe_list_str with
      | Except.error _ =>
        let msg := "could not convert the following string into a dictionary:\n\n" ++ recipe_list_str
        Except.ok { answer_str := msg, extra := [( "recipes", PyValue.list [])] }
      | Except.ok parsed => recipe_create_answer parsed
    | _ => Except.error PyError.assertionError

/-! Embedding of `src/chat_assistant.py`, the Dispatch Core. -/

/-- The `function` payload of an OpenAI tool call: the tool name and the raw
JSON-encoded argument string. -/
structure ToolCallFunction where
  name : String
  arguments : String

/-- A `ChatCompletionMessageFunctionToolCall`: call id, call type, and the
`function` attribute.  The code guards `not tool_call.function`, so the
attribute is embedded as an `Option`. -/
structure ToolCall where
  id : String
  type : String
  function : Option ToolCallFunction

/-- The part of a `ChatCompletionMessage` the dispatch core reads: the text
content (possibly `None`) and the optional list of tool calls. -/
structure ChatCompletionMessage where
  content : Option String
  tool_calls : Option (List ToolCall)

/-- One entry of `Assistant.history`, matching exactly the dict shapes the
code appends: a user turn, an assistant text turn (its content may be
`None`), an assistant tool-call turn (role assistant, empty content, one
tool-call descriptor with id / function name / raw arguments / call type),
and a tool turn (role tool, empty content, the tool answer, tool name and
originating call id). -/
inductive Turn where
  | user (content : String)
  | assistant (content : Option String)
  | assistantToolCall (id : String) (name : String) (arguments : String) (callType : String)
  | toolResult (tool_answer : AnswerDict) (tool_name : String) (tool_call_id : String)

/-- The mutable state of one `Assistant` instance: its system prompt, its
loaded tool mapping `self.tools`, and `self.history`. -/
structure AssistantState where
  system_message : String
  tools : List (String × ToolInstance)
  history : List Turn

/-- Embedding of `Assistant.get_attributes_from_tool_call_message(message)`.
`jsonLoads` is the external `json.loads` of the standard library; on
malformed input it raises (`Except.error`), and that exception propagates
uncaught out of this method.  When no tool call (or no `function` attribute)
is present the method shows a UI error and returns the sentinel tuple
`(None, "", dict(), "")` — the UI call has no effect on assistant state and
is not modelled. -/
def get_attributes_from_tool_call_message
    (jsonLoads : String → Except PyError (List (String × PyValue)))
    (message : ChatCompletionMessage) :
    Except PyError (Option ToolCall × String × List (String × PyValue) × String) :=
  match message.tool_calls with
  | Option.none => Except.ok (Option.none, "", [], "")
  | Option.some [] => Except.ok (Option.none, "", [], "")
  | Option.some (tool_call :: _) =>
    match tool_call.function with
    | Option.none => Except.ok (Option.none, "", [], "")
    | Option.some fn =>
      match jsonLoads fn.arguments with
      | Except.error e => Except.error e
      | Except.ok arguments => Except.ok (Option.some tool_call, fn.name, arguments, fn.arguments)

/-- Embedding of `Assistant.handle_tools(message)`: extract the first tool call, append
the assistant tool-call turn, look the tool up in `self.tools` (a plain dict
subscript, so an unknown name raises `KeyError`), run it, append the tool
turn, and return the tool answer.  State mutations performed before an
exception persist, exactly as `self.history.append` does in Python. -/
def handle_tools (jsonLoads : String → Except PyError (List (String × PyValue)))
    (s : AssistantState) (message : ChatCompletionMessage) :
    Except PyError AnswerDict × AssistantState :=
  match get_attributes_from_tool_call_message jsonLoads message with
  | Except.error e => (Except.error e, s)
  | Except.ok (Option.none, _, _, _) =>
    (Except.ok { answer_str := "Error: No tool call found." }, s)
  | Except.ok (Option.some tool_call, function_name, arguments, arguments_str) =>
    let s1 : AssistantState :=
      { s with history := s.history ++
          [Turn.assistantToolCall tool_call.id function_name arguments_str tool_call.type] }
    match lookupStr s1.tools function_name with
    | Option.none => (Except.error (PyError.keyError function_name), s1)
    | Option.some tool =>
      match tool.run_tool arguments with
      | Except.error e => (Except.error e, s1)
      | Except.ok tool_answer =>
        (Except.ok tool_answer,
         { s1 with history := s1.history ++
             [Turn.toolResult tool_answer function_name tool_call.id] })

/-- One element of `response.choices`. -/
structure Choice where
  finish_reason : String
  message : ChatCompletionMessage

/-- The response returned by `self.openai.chat.completions.create`. -/
structure ChatResponse where
  choices : List Choice

/-- Embedding of `Assistant.chat_with_tool(message)`: append the user turn, call the model
with the system prompt and the accumulated history (`openaiCreate` is the
external chat-completions endpoint), then branch on `finish_reason`:
dispatch to `handle_tools` on "tool_calls" (its return value is discarded,
its exceptions propagate), otherwise append the assistant text turn.
`response.choices[0]` on an empty choice list raises `IndexError`. -/
def chat_with_tool (jsonLoads : String → Except PyError (List (String × PyValue)))
    (openaiCreate : String → List Turn → ChatResponse)
    (s : AssistantState) (message : String) :
    Except PyError Unit × AssistantState :=
  let s1 : AssistantState := { s with history := s.history ++ [Turn.user message] }
  let response := openaiCreate s1.system_message s1.history
  match response.choices with
  | [] => (Except.error (PyError.other ( "IndexError")), s1)
  | choice :: _ =>
    if choice.finish_reason = "tool_calls" then
      match handle_tools jsonLoads s1 choice.message with
      | (Except.error e, s2) => (Except.error e, s2)
      | (Except.ok _, s2) => (Except.ok (), s2)
    else
      (Except.ok (), { s1 with history := s1.history ++ [Turn.assistant choice.message.content] })

/-- Run a sequence of `chat_with_tool` submissions, threading the assistant
state (the history of one live assistant across a session). -/
def runChats (jsonLoads : String → Except PyError (List (String × PyValue)))
    (openaiCreate : String → List Turn → ChatResponse) :
    AssistantState → List String → AssistantState
  | s, [] => s
  | s, m :: ms =>
    runChats jsonLoads openaiCreate (chat_with_tool jsonLoads openaiCreate s m).2 ms

/-- Every submission in the sequence returns normally (no exception
propagates out of `chat_with_tool`). -/
def allOk (jsonLoads : String → Except PyError (List (String × PyValue)))
    (openaiCreate : String → List Turn → ChatResponse) :
    AssistantState → List String → Prop
  | _, [] => True
  | s, m :: ms =>
    (chat_with_tool jsonLoads openaiCreate s m).1 = Except.ok () ∧
      allOk jsonLoads openaiCreate (chat_with_tool jsonLoads openaiCreate s m).2 ms

/-! Formalisation of the tool-call pairing invariant (spec section 8, *Tool-call pairing*). -/

/-- No tool turn with call id `cid` occurs before the next user turn. -/
def noToolResultBeforeUser (cid : String) : List Turn → Bool
  | [] => true
  | Turn.user _ :: _ => true
  | Turn.toolResult _ _ rid :: rest =>
    decide (rid ≠ cid) && noToolResultBeforeUser cid rest
  | Turn.assistant _ :: rest => noToolResultBeforeUser cid rest
  | Turn.assistantToolCall _ _ _ _ :: rest => noToolResultBeforeUser cid rest

/-- The pairing invariant of the spec: every assistant turn carrying a
tool-call descriptor with call id `X` is immediately followed by exactly one
tool turn whose `tool_call_id` is `X`, before any subsequent user turn. -/
def wellPaired : List Turn → Bool
  | [] => true
  | Turn.assistantToolCall cid _ _ _ :: Turn.toolResult _ _ rid :: rest2 =>
    decide (rid = cid) && noToolResultBeforeUser cid rest2 && wellPaired rest2
  | Turn.assistantToolCall _ _ _ _ :: _ => false
  | Turn.user _ :: rest => wellPaired rest
  | Turn.assistant _ :: rest => wellPaired rest
  | Turn.toolResult _ _ _ :: rest => wellPaired rest

/-! Concrete sample collaborators used by witnesses and counterexamples. -/

/-- A concrete stand-in for the external `json.loads` used to evaluate the
dispatch core on closed inputs: the empty JSON object parses to the empty
dict, everything else fails with a decode error (as `json.loads` does on the
inputs exercised below). -/
def jsonLoads0 : String → Except PyError (List (String × PyValue)) :=
  fun s => if s = "\x7b\x7d" then Except.ok [] else Except.error (PyError.jsonDecodeError s)

/-- A concrete stand-in for the external collaborators of a web-search tool whose
model output never parses as JSON. -/
def sampleOracle : ResponsesOracle :=
  { create := fun _ => "sample output",
    jsonLoadsClean := fun s => Except.error (PyError.jsonDecodeError s) }

/-- A sample tool instance named "dup" (first of a colliding pair). -/
def dupToolA : ToolInstance where
  tool_dict := { type := "function", name := "dup", description := "first tool named dup", parameters := PyValue.dict [] }
  group := "a"
  run_tool := fun _ => Except.ok { answer_str := "A" }

/-- A sample tool instance named "dup" (second of a colliding pair). -/
def dupToolB : ToolInstance where
  tool_dict := { type := "function", name := "dup", description := "second tool named dup", parameters := PyValue.dict [] }
  group := "b"
  run_tool := fun _ => Except.ok { answer_str := "B" }

/-- A registered class with no constructor dependencies whose instance is
`dupToolA`. -/
def clsDupA : ToolClass := { ctorParams := [], construct := fun _ => dupToolA }

/-- A registered class with no constructor dependencies whose instance is
`dupToolB`. -/
def clsDupB : ToolClass := { ctorParams := [], construct := fun _ => dupToolB }

/-- A sample tool instance named "toolA" remembering its constructor
keyword arguments (as the concrete tools of the repository keep theirs). -/
def needyToolA (kw : List (String × PyValue)) : ToolInstance where
  tool_dict := { type := "function", name := "toolA", description := "first tool requiring openai", parameters := PyValue.dict [] }
  group := "general"
  run_tool := fun _ => Except.ok { answer_str := pyRepr (PyValue.dict kw) }

/-- A registered class requiring `model` and `openai` whose instance is
`needyToolA`. -/
def clsNeedsOpenaiA : ToolClass where
  ctorParams := [ "model", "openai"]
  construct := needyToolA

/-- A sample tool instance named "toolB" remembering its constructor
keyword arguments. -/
def needyToolB (kw : List (String × PyValue)) : ToolInstance where
  tool_dict := { type := "function", name := "toolB", description := "second tool requiring openai", parameters := PyValue.dict [] }
  group := "general"
  run_tool := fun _ => Except.ok { answer_str := pyRepr (PyValue.dict kw) }

/-- A second, different registered class requiring `model` and `openai`,
whose instance is `needyToolB`. -/
def clsNeedsOpenaiB : ToolClass where
  ctorParams := [ "model", "openai"]
  construct := needyToolB

/-- A model tool call naming the tool "ghost" (absent from every sample tool
mapping below) with the empty JSON object as arguments. -/
def ghostCall : ToolCall where
  id := "c1"
  type := "function"
  function := Option.some { name := "ghost", arguments := "\x7b\x7d" }

/-- A model message whose only tool call is `ghostCall`. -/
def ghostMessage : ChatCompletionMessage :=
  { content := Option.none, tool_calls := Option.some [ghostCall] }

/-- A model tool call whose argument string is not JSON. -/
def badJsonCall : ToolCall where
  id := "c2"
  type := "function"
  function := Option.some { name := "ghost", arguments := "not json" }

/-- A model message whose first tool call is `badJsonCall`. -/
def badJsonMessage : ChatCompletionMessage where
  content := Option.none
  tool_calls := Option.some [badJsonCall]

/-- A model message whose first tool call lacks the `function` attribute. -/
def noFunctionMessage : ChatCompletionMessage where
  content := Option.none
  tool_calls := Option.some [{ id := "c3", type := "function", function := Option.none }]

/-- A freshly constructed assistant with an empty tool mapping and empty
history. -/
def emptyAssistant : AssistantState :=
  { system_message := "You are an AI assistant.", tools := [], history := [] }

/-- A chat-completions endpoint stand-in that always answers with plain
text. -/
def ocStop : String → List Turn → ChatResponse :=
  fun _ _ => { choices := [{ finish_reason := "stop", message := { content := Option.some ( "4"), tool_calls := Option.none } }] }

/-- A chat-completions endpoint stand-in that always requests the unknown
tool "ghost". -/
def ocGhost : String → List Turn → ChatResponse :=
  fun _ _ => { choices := [{ finish_reason := "tool_calls", message := ghostMessage }] }

/-! Theorems. -/

theorem exceptBind_ok {ε α β : Type} (a : α) (f : α → Except ε β) :
    (Except.ok a >>= f : Except ε β) = f a := rfl

theorem exceptBind_error {ε α β : Type} (e : ε) (f : α → Except ε β) :
    (Except.error e >>= f : Except ε β) = Except.error e := rfl

theorem dictInsert_mem {α : Type} (d : List (String × α)) (k : String) (v : α)
    (p : String × α) (hp : p ∈ dictInsert d k v) : p ∈ d ∨ p = (k, v) := by
  unfold dictInsert at hp
  split at hp
  · obtain ⟨q, hq, hqe⟩ := List.mem_map.mp hp
    by_cases hk : q.1 = k
    · right
      rw [if_pos hk] at hqe
      exact hqe.symm
    · left
      rw [if_neg hk] at hqe
      exact hqe ▸ hq
  · rcases List.mem_append.mp hp with h | h
    · exact Or.inl h
    · exact Or.inr (List.mem_singleton.mp h)

theorem dictInsert_keys_nodup {α : Type} (d : List (String × α)) (k : String) (v : α)
    (h : (d.map Prod.fst).Nodup) : ((dictInsert d k v).map Prod.fst).Nodup := by
  unfold dictInsert
  split
  · have : (d.map (fun p => if p.1 = k then (k, v) else p)).map Prod.fst = d.map Prod.fst := by
      rw [List.map_map]
      apply List.map_congr_left
      intro p _
      by_cases hp : p.1 = k
      · simp [hp]
      · simp [hp]
    rw [this]
    exact h
  · rename_i hni
    rw [List.map_append]
    simp only [List.map_cons, List.map_nil]
    apply List.Nodup.append h (List.nodup_singleton k)
    intro a ha hb
    rw [List.mem_singleton] at hb
    subst hb
    exact hni (by simpa using ha)

theorem create_tools_go_keys_nodup (registry : List ToolClass)
    (bag : List (String × PyValue)) (acc m : List (String × ToolInstance))
    (hacc : (acc.map Prod.fst).Nodup)
    (h : create_tools_go registry bag acc = Except.ok m) :
    (m.map Prod.fst).Nodup := by
  induction registry generalizing acc with
  | nil =>
    rw [create_tools_go] at h
    cases h
    exact hacc
  | cons cls rest ih =>
    rw [create_tools_go] at h
    cases hinst : instantiate bag cls with
    | error e => rw [hinst] at h; cases h
    | ok obj =>
      rw [hinst] at h
      rw [exceptBind_ok] at h
      exact ih _ (dictInsert_keys_nodup _ _ _ hacc) h

theorem _get_subkwargs_ok_char (bag : List (String × PyValue)) (keys : List String)
    (h : ∀ p ∈ keys, (lookupStr bag p).isSome) :
    ∃ filtered, _get_subkwargs bag keys = Except.ok filtered ∧
      ∀ k v, ((k, v) ∈ filtered ↔ (k ∈ keys ∧ lookupStr bag k = Option.some v)) := by
  induction keys with
  | nil =>
    refine ⟨[], rfl, ?_⟩
    simp
  | cons key rest ih =>
    have hk := h key (List.mem_cons_self key rest)
    cases hv : lookupStr bag key with
    | none => rw [hv] at hk; simp at hk
    | some v0 =>
      obtain ⟨tail, htail, hchar⟩ := ih (fun p hp => h p (List.mem_cons_of_mem _ hp))
      refine ⟨(key, v0) :: tail, ?_, ?_⟩
      · rw [_get_subkwargs, hv, htail]
        rfl
      · intro k v
        constructor
        · intro hm
          rcases List.mem_cons.mp hm with he | hm2
          · rw [Prod.mk.injEq] at he
            obtain ⟨h1, h2⟩ := he
            subst h1
            subst h2
            exact ⟨List.mem_cons_self _ _, hv⟩
          · obtain ⟨hk2, hl⟩ := (hchar k v).mp hm2
            exact ⟨List.mem_cons_of_mem _ hk2, hl⟩
        · rintro ⟨hkin, hl⟩
          rcases List.mem_cons.mp hkin with he | hk2
          · subst he
            rw [hv] at hl
            injection hl with hveq
            subst hveq
            exact List.mem_cons_self _ _
          · exact List.mem_cons_of_mem _ ((hchar k v).mpr ⟨hk2, hl⟩)

theorem _get_subkwargs_missing (bag : List (String × PyValue)) (keys : List String)
    (h : ∃ p ∈ keys, lookupStr bag p = Option.none) :
    ∃ p, p ∈ keys ∧ lookupStr bag p = Option.none ∧
      _get_subkwargs bag keys = Except.error (PyError.keyError p) := by
  induction keys with
  | nil => simp at h
  | cons key rest ih =>
    cases hv : lookupStr bag key with
    | none =>
      refine ⟨key, List.mem_cons_self _ _, hv, ?_⟩
      rw [_get_subkwargs, hv]
    | some v0 =>
      have h2 : ∃ p ∈ rest, lookupStr bag p = Option.none := by
        obtain ⟨p, hp, hnone⟩ := h
        rcases List.mem_cons.mp hp with he | hm
        · subst he
          rw [hv] at hnone
          cases hnone
        · exact ⟨p, hm, hnone⟩
      obtain ⟨p, hp, hnone, herr⟩ := ih h2
      refine ⟨p, List.mem_cons_of_mem _ hp, hnone, ?_⟩
      rw [_get_subkwargs, hv, herr]
      rfl

theorem create_tools_go_missing_dep (registry : List ToolClass)
    (bag : List (String × PyValue)) (acc : List (String × ToolInstance))
    (h : ∃ cls ∈ registry, ∃ p ∈ _get_attributes cls, lookupStr bag p = Option.none) :
    ∃ p, (∃ cls ∈ registry, p ∈ _get_attributes cls ∧ lookupStr bag p = Option.none) ∧
      create_tools_go registry bag acc = Except.error (PyError.keyError p) := by
  induction registry generalizing acc with
  | nil => simp at h
  | cons cls rest ih =>
    by_cases hall : ∀ p ∈ _get_attributes cls, (lookupStr bag p).isSome
    · obtain ⟨filtered, hok, _⟩ := _get_subkwargs_ok_char bag (_get_attributes cls) hall
      have h2 : ∃ c ∈ rest, ∃ p ∈ _get_attributes c, lookupStr bag p = Option.none := by
        obtain ⟨c, hc, p, hp, hnone⟩ := h
        rcases List.mem_cons.mp hc with he | hm
        · subst he
          have := hall p hp
          rw [hnone] at this
          simp at this
        · exact ⟨c, hm, p, hp, hnone⟩
      obtain ⟨p, ⟨c, hm, hrest⟩, herr⟩ :=
        ih (dictInsert acc (cls.construct filtered).tool_dict.name (cls.construct filtered)) h2
      refine ⟨p, ⟨c, List.mem_cons_of_mem _ hm, hrest⟩, ?_⟩
      rw [create_tools_go, instantiate]
      rw [hok]
      exact herr
    · push_neg at hall
      obtain ⟨p0, hp0, hnone0⟩ := hall
      have hnone0' : lookupStr bag p0 = Option.none := by
        cases hl : lookupStr bag p0 with
        | none => rfl
        | some v => rw [hl] at hnone0; simp at hnone0
      obtain ⟨p, hp, hnone, herr⟩ :=
        _get_subkwargs_missing bag (_get_attributes cls) ⟨p0, hp0, hnone0'⟩
      refine ⟨p, ⟨cls, List.mem_cons_self _ _, hp, hnone⟩, ?_⟩
      rw [create_tools_go, instantiate]
      rw [herr]
      rfl

/-- C5: on a dependency bag missing a constructor parameter of some
registered tool class, `create_tools` fails — it raises the `KeyError` of a
missing parameter name out of `_get_subkwargs` and returns no mapping at all
(no partial registry reaches the caller).  The raised error names only the
missing parameter, not the tool (see the counterexample for the part of the
claim this forces out). -/
theorem create_tools_missing_dependency (registry : List ToolClass)
    (bag : List (String × PyValue))
    (h : ∃ cls ∈ registry, ∃ p ∈ _get_attributes cls, lookupStr bag p = Option.none) :
    ∃ p, (∃ cls ∈ registry, p ∈ _get_attributes cls ∧ lookupStr bag p = Option.none) ∧
      create_tools registry bag = Except.error (PyError.keyError p) :=
  create_tools_go_missing_dep registry bag [] h

/-- C5 witness: a registry whose only class requires `model` and `openai`,
and a bag holding only `model`, make `create_tools` fail with
`KeyError("openai")`. -/
theorem create_tools_missing_dependency_witness :
    ∃ p, (∃ cls ∈ [clsNeedsOpenaiA], p ∈ _get_attributes cls ∧
        lookupStr [( "model", PyValue.str ( "m"))] p = Option.none) ∧
      create_tools [clsNeedsOpenaiA] [( "model", PyValue.str ( "m"))] =
        Except.error (PyError.keyError p) :=
  create_tools_missing_dependency [clsNeedsOpenaiA] [( "model", PyValue.str ( "m"))]
    ⟨clsNeedsOpenaiA, List.mem_cons_self _ _, "openai", by simp [_get_attributes, clsNeedsOpenaiA], rfl⟩

/-- C5 counterexample: two different registered classes (building the
distinct tools "toolA" and "toolB") produce the *same* error value
`KeyError("openai")` on the same deficient bag, so the failure does not
identify the tool — only the missing parameter name — contradicting the
claim that the condition identifies the tool. -/
theorem create_tools_missing_dependency_counterexample :
    create_tools [clsNeedsOpenaiA] [( "model", PyValue.str ( "m"))] =
        Except.error (PyError.keyError ( "openai")) ∧
    create_tools [clsNeedsOpenaiB] [( "model", PyValue.str ( "m"))] =
        Except.error (PyError.keyError ( "openai")) ∧
    (clsNeedsOpenaiA.construct []).tool_dict.name ≠ (clsNeedsOpenaiB.construct []).tool_dict.name :=
  ⟨rfl, rfl, by decide⟩

/-- C6: a name collision between two instantiated tools is not fatal —
`create_tools` succeeds, the returned mapping keeps one entry per distinct
declared name (its keys are pairwise distinct), and the instance from the
later registry entry silently replaces the earlier one under the collided
name. -/
theorem create_tools_name_collision :
    (∀ (registry : List ToolClass) (bag : List (String × PyValue))
        (m : List (String × ToolInstance)),
      create_tools registry bag = Except.ok m → (m.map Prod.fst).Nodup) ∧
    create_tools [clsDupA, clsDupB] [] = Except.ok [( "dup", dupToolB)] :=
  ⟨fun registry bag m h =>
    create_tools_go_keys_nodup registry bag [] m (by simp) h, rfl⟩

/-- C6 witness: the distinct-keys part applied to the concrete colliding
registry. -/
theorem create_tools_name_collision_witness :
    (([( "dup", dupToolB)] : List (String × ToolInstance)).map Prod.fst).Nodup :=
  create_tools_name_collision.1 [clsDupA, clsDupB] [] [( "dup", dupToolB)] rfl

/-- C6 counterexample: a registry with two classes whose instances are both
named "dup" does not make `create_tools` fail; it returns a single-entry
mapping holding the later instance (group "b", not the earlier group "a"),
refuting the claim that the collision is fatal. -/
theorem create_tools_name_collision_counterexample :
    create_tools [clsDupA, clsDupB] [] = Except.ok [( "dup", dupToolB)] ∧
    dupToolA.group = "a" ∧ dupToolB.group = "b" :=
  ⟨rfl, rfl, rfl⟩

/-- C7: for a registered class whose constructor parameter names are all
present in the dependency bag, `create_tools` instantiates the class with
exactly the bag entries whose keys match the declared parameter names (exact
name match): the filtered kwargs contain a pair `(k, v)` precisely when `k`
is a declared parameter and the bag maps `k` to `v`, so bag keys matching no
declared parameter are not passed; the instantiation step applies the class
to exactly that subset, and on a one-class registry the returned mapping is
exactly that instance under its declared name. -/
theorem create_tools_exact_dependency_filtering
    (bag : List (String × PyValue)) (cls : ToolClass)
    (h : ∀ p ∈ _get_attributes cls, (lookupStr bag p).isSome) :
    ∃ filtered,
      _get_subkwargs bag (_get_attributes cls) = Except.ok filtered ∧
      (∀ k v, ((k, v) ∈ filtered ↔ (k ∈ _get_attributes cls ∧ lookupStr bag k = Option.some v))) ∧
      instantiate bag cls = Except.ok (cls.construct filtered) ∧
      create_tools [cls] bag =
        Except.ok [((cls.construct filtered).tool_dict.name, cls.construct filtered)] := by
  obtain ⟨filtered, hok, hchar⟩ := _get_subkwargs_ok_char bag (_get_attributes cls) h
  have hinst : instantiate bag cls = Except.ok (cls.construct filtered) := by
    rw [instantiate, hok]
    rfl
  refine ⟨filtered, hok, hchar, hinst, ?_⟩
  rw [create_tools, create_tools_go, hinst]
  rw [exceptBind_ok, create_tools_go]
  rfl

/-- C7 witness: the spec scenario — a bag with `model`, `openai` and an
unused `extra` against a class declaring `(model, openai)` — instantiated
with exactly the two matching entries. -/
theorem create_tools_exact_dependency_filtering_witness :
    ∃ filtered,
      _get_subkwargs
          [( "model", PyValue.str ( "m")), ( "openai", PyValue.str ( "client")), ( "extra", PyValue.str ( "unused"))]
          (_get_attributes clsNeedsOpenaiA) = Except.ok filtered ∧
      (∀ k v, ((k, v) ∈ filtered ↔ (k ∈ _get_attributes clsNeedsOpenaiA ∧
        lookupStr [( "model", PyValue.str ( "m")), ( "openai", PyValue.str ( "client")), ( "extra", PyValue.str ( "unused"))] k
          = Option.some v))) ∧
      instantiate [( "model", PyValue.str ( "m")), ( "openai", PyValue.str ( "client")), ( "extra", PyValue.str ( "unused"))] clsNeedsOpenaiA
        = Except.ok (clsNeedsOpenaiA.construct filtered) ∧
      create_tools [clsNeedsOpenaiA]
          [( "model", PyValue.str ( "m")), ( "openai", PyValue.str ( "client")), ( "extra", PyValue.str ( "unused"))] =
        Except.ok [((clsNeedsOpenaiA.construct filtered).tool_dict.name, clsNeedsOpenaiA.construct filtered)] :=
  create_tools_exact_dependency_filtering _ clsNeedsOpenaiA
    (by intro p hp
        simp only [_get_attributes, clsNeedsOpenaiA, List.mem_cons, List.not_mem_nil, or_false] at hp
        rcases hp with h | h <;> subst h <;> rfl)

/-- C8: `ToolLoader.load_tools` is a pure filter by group membership: a pair
belongs to the loaded mapping exactly when it belongs to the full mapping
and its instance group tag is a member of the requested groups, and the
loaded mapping is a sublist of the full mapping (nothing added, nothing
reordered; the function touches neither the instances nor the source
mapping). -/
theorem load_tools_group_filter (all : List (String × ToolInstance))
    (groups : List String) :
    (∀ p : String × ToolInstance,
        (p ∈ load_tools all groups ↔ (p ∈ all ∧ p.2.group ∈ groups))) ∧
    List.Sublist (load_tools all groups) all := by
  induction all with
  | nil =>
    constructor
    · intro p
      rw [load_tools]
      simp
    · rw [load_tools]
  | cons hd rest ih =>
    obtain ⟨n, t⟩ := hd
    obtain ⟨ihc, ihs⟩ := ih
    by_cases hg : groups.contains t.group
    · constructor
      · intro p
        rw [load_tools, if_pos hg]
        constructor
        · intro hm
          rcases List.mem_cons.mp hm with he | hm2
          · subst he
            exact ⟨List.mem_cons_self _ _, List.elem_iff.mp hg⟩
          · obtain ⟨h1, h2⟩ := (ihc p).mp hm2
            exact ⟨List.mem_cons_of_mem _ h1, h2⟩
        · rintro ⟨hmem, hgrp⟩
          rcases List.mem_cons.mp hmem with he | hm2
          · subst he
            exact List.mem_cons_self _ _
          · exact List.mem_cons_of_mem _ ((ihc p).mpr ⟨hm2, hgrp⟩)
      · rw [load_tools, if_pos hg]
        exact List.Sublist.cons₂ _ ihs
    · constructor
      · intro p
        rw [load_tools, if_neg hg]
        constructor
        · intro hm
          obtain ⟨h1, h2⟩ := (ihc p).mp hm
          exact ⟨List.mem_cons_of_mem _ h1, h2⟩
        · rintro ⟨hmem, hgrp⟩
          rcases List.mem_cons.mp hmem with he | hm2
          · subst he
            exact absurd (List.elem_iff.mpr hgrp) hg
          · exact (ihc p).mpr ⟨hm2, hgrp⟩
      · rw [load_tools, if_neg hg]
        exact List.Sublist.cons _ ihs

/-- C10: on a model message containing no tool calls at all (`tool_calls`
absent or the empty list — both falsy in the guard), `handle_tools` returns
the error result with answer string "Error: No tool call found." and leaves
the assistant state, in particular its history, exactly unchanged. -/
theorem handle_tools_no_tool_call
    (jsonLoads : String → Except PyError (List (String × PyValue)))
    (s : AssistantState) (message : ChatCompletionMessage)
    (h : message.tool_calls = Option.none ∨ message.tool_calls = Option.some []) :
    handle_tools jsonLoads s message =
      (Except.ok { answer_str := "Error: No tool call found." }, s) := by
  rcases h with h | h <;> simp [handle_tools, get_attributes_from_tool_call_message, h]

/-- C10 witness: a concrete plain message with `tool_calls = None` against a
fresh assistant. -/
theorem handle_tools_no_tool_call_witness :
    handle_tools jsonLoads0 emptyAssistant
        { content := Option.some ( "hi"), tool_calls := Option.none } =
      (Except.ok { answer_str := "Error: No tool call found." }, emptyAssistant) :=
  handle_tools_no_tool_call jsonLoads0 emptyAssistant
    { content := Option.some ( "hi"), tool_calls := Option.none } (Or.inl rfl)

/-- C1 (amended): when the first tool call names a tool absent from the
loaded mapping (and its arguments parse), `handle_tools` does not produce an
error-shaped Tool Result — the dict subscript `self.tools[function_name]`
raises `KeyError(function_name)`, which propagates to the caller, and the
already-appended assistant tool-call turn stays in the history. -/
theorem handle_tools_unknown_tool
    (jsonLoads : String → Except PyError (List (String × PyValue)))
    (s : AssistantState) (message : ChatCompletionMessage)
    (tool_call : ToolCall) (others : List ToolCall) (fn : ToolCallFunction)
    (args : List (String × PyValue))
    (hm : message.tool_calls = Option.some (tool_call :: others))
    (hf : tool_call.function = Option.some fn)
    (hj : jsonLoads fn.arguments = Except.ok args)
    (hu : lookupStr s.tools fn.name = Option.none) :
    handle_tools jsonLoads s message =
      (Except.error (PyError.keyError fn.name),
       { s with history := s.history ++
           [Turn.assistantToolCall tool_call.id fn.name fn.arguments tool_call.type] }) := by
  simp [handle_tools, get_attributes_from_tool_call_message, hm, hf, hj, hu]

/-- C1 witness: the unknown-tool theorem applied to the concrete "ghost"
call against an assistant with an empty tool mapping. -/
theorem handle_tools_unknown_tool_witness :
    handle_tools jsonLoads0 emptyAssistant ghostMessage =
      (Except.error (PyError.keyError ( "ghost")),
       { emptyAssistant with
          history := [Turn.assistantToolCall ( "c1") "ghost" "\x7b\x7d" "function"] }) := by
  have h := handle_tools_unknown_tool jsonLoads0 emptyAssistant ghostMessage
    ghostCall [] { name := "ghost", arguments := "\x7b\x7d" } [] rfl rfl rfl rfl
  simpa [emptyAssistant, ghostCall] using h

/-- C1 counterexample: dispatching the "ghost" call yields the uncaught
`KeyError("ghost")`, not an error-shaped Tool Result, refuting the claim
that the condition is surfaced as a Tool Result without raising. -/
theorem handle_tools_unknown_tool_counterexample :
    (handle_tools jsonLoads0 emptyAssistant ghostMessage).1 =
      Except.error (PyError.keyError ( "ghost")) := rfl

/-- C4 (amended): a tool-call response with a missing call or a missing
`function` attribute is recovered locally — `handle_tools` appends nothing
and returns the error-describing result without raising; but an
argument string that does not parse as JSON makes `json.loads` raise, and
the `JSONDecodeError` propagates out of `handle_tools` (no tool turn is
appended, yet no result is returned either). -/
theorem handle_tools_invalid_tool_call
    (jsonLoads : String → Except PyError (List (String × PyValue)))
    (s : AssistantState) (message : ChatCompletionMessage) :
    ((message.tool_calls = Option.none ∨ message.tool_calls = Option.some [] ∨
        (∃ tc others, message.tool_calls = Option.some (tc :: others) ∧
          tc.function = Option.none)) →
      handle_tools jsonLoads s message =
        (Except.ok { answer_str := "Error: No tool call found." }, s)) ∧
    (∀ (tc : ToolCall) (others : List ToolCall) (fn : ToolCallFunction) (e : PyError),
      message.tool_calls = Option.some (tc :: others) → tc.function = Option.some fn →
      jsonLoads fn.arguments = Except.error e →
      handle_tools jsonLoads s message = (Except.error e, s)) := by
  constructor
  · intro h
    rcases h with h | h | ⟨tc, others, hm, hfn⟩
    · simp [handle_tools, get_attributes_from_tool_call_message, h]
    · simp [handle_tools, get_attributes_from_tool_call_message, h]
    · simp [handle_tools, get_attributes_from_tool_call_message, hm, hfn]
  · intro tc others fn e hm hfn hj
    simp [handle_tools, get_attributes_from_tool_call_message, hm, hfn, hj]

/-- C4 witness: the recovered branch applied to the concrete message whose
first call lacks a `function` attribute. -/
theorem handle_tools_invalid_tool_call_witness :
    handle_tools jsonLoads0 emptyAssistant noFunctionMessage =
      (Except.ok { answer_str := "Error: No tool call found." }, emptyAssistant) :=
  (handle_tools_invalid_tool_call jsonLoads0 emptyAssistant noFunctionMessage).1
    (Or.inr (Or.inr ⟨{ id := "c3", type := "function", function := Option.none }, [], rfl, rfl⟩))

/-- C4 counterexample: on a call whose argument string is not JSON the
dispatch core does not recover — the decode error propagates and no
failure-describing result is returned, refuting the unparsable-arguments
part of the claim. -/
theorem handle_tools_invalid_tool_call_counterexample :
    handle_tools jsonLoads0 emptyAssistant badJsonMessage =
      (Except.error (PyError.jsonDecodeError ( "not json")), emptyAssistant) := rfl

/-- C3 (amended): the argument validation of the two web-search tools does
not produce an explanatory Tool Result — a missing required argument makes
the `kwargs[...]` subscript raise `KeyError`, and a value of the wrong type
makes the `assert isinstance(..., str)` raise `AssertionError`; both
propagate out of `run_tool` (error-shaped results are reserved for
downstream model-output parse failures). -/
theorem run_tool_invalid_arguments (oracle : ResponsesOracle)
    (kwargs : List (String × PyValue)) :
    ((lookupStr kwargs ( "question") = Option.none →
        wikipedia_run_tool oracle kwargs = Except.error (PyError.keyError ( "question"))) ∧
     (∀ v, lookupStr kwargs ( "question") = Option.some v → (∀ q, v ≠ PyValue.str q) →
        wikipedia_run_tool oracle kwargs = Except.error PyError.assertionError)) ∧
    ((lookupStr kwargs ( "description_recipe") = Option.none →
        recipe_run_tool oracle kwargs = Except.error (PyError.keyError ( "description_recipe"))) ∧
     (∀ v, lookupStr kwargs ( "description_recipe") = Option.some v → (∀ d, v ≠ PyValue.str d) →
        recipe_run_tool oracle kwargs = Except.error PyError.assertionError)) := by
  refine ⟨⟨?_, ?_⟩, ?_, ?_⟩
  · intro h
    simp [wikipedia_run_tool, h]
  · intro v hv hne
    rcases v with q | n | b | _ | xs | xs
    · exact absurd rfl (hne q)
    all_goals simp [wikipedia_run_tool, hv]
  · intro h
    simp [recipe_run_tool, h]
  · intro v hv hne
    rcases v with q | n | b | _ | xs | xs
    · exact absurd rfl (hne q)
    all_goals simp [recipe_run_tool, hv]

/-- C3 witness: the missing-argument branch applied to concrete kwargs that
hold only an unrelated key. -/
theorem run_tool_invalid_arguments_witness :
    wikipedia_run_tool sampleOracle [( "q", PyValue.str ( "x"))] =
      Except.error (PyError.keyError ( "question")) :=
  ((run_tool_invalid_arguments sampleOracle [( "q", PyValue.str ( "x"))]).1).1 rfl

/-- C3 counterexample: concrete invalid argument mappings on which both
tools raise instead of returning a Tool Result whose summary explains the
problem, refuting the claim. -/
theorem run_tool_invalid_arguments_counterexample :
    wikipedia_run_tool sampleOracle [] = Except.error (PyError.keyError ( "question")) ∧
    wikipedia_run_tool sampleOracle [( "question", PyValue.int 3)] =
      Except.error PyError.assertionError ∧
    recipe_run_tool sampleOracle [] = Except.error (PyError.keyError ( "description_recipe")) ∧
    recipe_run_tool sampleOracle [( "description_recipe", PyValue.bool true)] =
      Except.error PyError.assertionError :=
  ⟨rfl, rfl, rfl, rfl⟩

theorem handle_tools_history_extends
    (jsonLoads : String → Except PyError (List (String × PyValue)))
    (s : AssistantState) (message : ChatCompletionMessage) :
    ∃ t, (handle_tools jsonLoads s message).2.history = s.history ++ t := by
  cases hga : get_attributes_from_tool_call_message jsonLoads message with
  | error e =>
    refine ⟨[], ?_⟩
    simp [handle_tools, hga]
  | ok quad =>
    obtain ⟨otc, fn, args, argstr⟩ := quad
    cases otc with
    | none =>
      refine ⟨[], ?_⟩
      simp [handle_tools, hga]
    | some tc =>
      cases hlt : lookupStr s.tools fn with
      | none =>
        refine ⟨[Turn.assistantToolCall tc.id fn argstr tc.type], ?_⟩
        simp [handle_tools, hga, hlt]
      | some tool =>
        cases hrun : tool.run_tool args with
        | error e =>
          refine ⟨[Turn.assistantToolCall tc.id fn argstr tc.type], ?_⟩
          simp [handle_tools, hga, hlt, hrun]
        | ok ans =>
          refine ⟨[Turn.assistantToolCall tc.id fn argstr tc.type,
                   Turn.toolResult ans fn tc.id], ?_⟩
          simp [handle_tools, hga, hlt, hrun]

theorem chat_with_tool_history_extends
    (jsonLoads : String → Except PyError (List (String × PyValue)))
    (oc : String → List Turn → ChatResponse) (s : AssistantState) (m : String) :
    ∃ t, (chat_with_tool jsonLoads oc s m).2.history = s.history ++ Turn.user m :: t := by
  simp only [chat_with_tool]
  split
  · refine ⟨[], ?_⟩
    simp
  · rename_i choice rest heq
    split
    · obtain ⟨t, ht⟩ := handle_tools_history_extends jsonLoads
        { s with history := s.history ++ [Turn.user m] } choice.message
      split
      · rename_i e s2 hh
        refine ⟨t, ?_⟩
        rw [hh] at ht
        simpa using ht
      · rename_i a s2 hh
        refine ⟨t, ?_⟩
        rw [hh] at ht
        simpa using ht
    · refine ⟨[Turn.assistant choice.message.content], ?_⟩
      simp

/-- C9: the conversation history is append-only across any sequence of
`chat_with_tool` submissions, whatever the model endpoint, the JSON parser
and the tools do (including raising): the prior history is always an initial
segment of the later history — so its length never decreases and every
previously added turn remains unchanged at its index. -/
theorem history_append_only
    (jsonLoads : String → Except PyError (List (String × PyValue)))
    (oc : String → List Turn → ChatResponse) (s : AssistantState)
    (msgs : List String) :
    (∃ t, (runChats jsonLoads oc s msgs).history = s.history ++ t) ∧
    (runChats jsonLoads oc s msgs).history.take s.history.length = s.history ∧
    s.history.length ≤ (runChats jsonLoads oc s msgs).history.length := by
  have main : ∃ t, (runChats jsonLoads oc s msgs).history = s.history ++ t := by
    induction msgs generalizing s with
    | nil => exact ⟨[], by simp [runChats]⟩
    | cons m ms ih =>
      obtain ⟨t1, h1⟩ := chat_with_tool_history_extends jsonLoads oc s m
      obtain ⟨t2, h2⟩ := ih ((chat_with_tool jsonLoads oc s m).2)
      refine ⟨(Turn.user m :: t1) ++ t2, ?_⟩
      rw [runChats, h2, h1, List.append_assoc]
  obtain ⟨t, ht⟩ := main
  refine ⟨⟨t, ht⟩, ?_, ?_⟩
  · rw [ht, List.take_left]
  · rw [ht]
    simp

theorem noToolResultBeforeUser_append_user (cid : String) (m : String)
    (g t : List Turn) :
    noToolResultBeforeUser cid (t ++ Turn.user m :: g) = noToolResultBeforeUser cid t := by
  induction t with
  | nil => rfl
  | cons hd rest ih =>
    cases hd with
    | user c => rfl
    | assistant c => simpa [noToolResultBeforeUser] using ih
    | assistantToolCall a b c d => simpa [noToolResultBeforeUser] using ih
    | toolResult ans tn rid => simp [noToolResultBeforeUser, ih]

theorem wellPaired_append_user (m : String) (g : List Turn) (h : List Turn) :
    wellPaired (h ++ Turn.user m :: g) = (wellPaired h && wellPaired (Turn.user m :: g)) := by
  induction h using wellPaired.induct with
  | case1 => simp [wellPaired]
  | case2 cid name args ty ans tn rid rest2 ih =>
    simp [wellPaired, noToolResultBeforeUser_append_user, ih, Bool.and_assoc]
  | case3 id name args ty tail hne =>
    cases tail with
    | nil => simp [wellPaired]
    | cons x t2 =>
      cases x with
      | toolResult ans tn rid => exact absurd rfl (hne ans tn rid t2)
      | user c => simp [wellPaired]
      | assistant c => simp [wellPaired]
      | assistantToolCall a b c d => simp [wellPaired]
  | case4 c rest ih => simp [wellPaired, ih]
  | case5 c rest ih => simp [wellPaired, ih]
  | case6 ans tn rid rest ih => simp [wellPaired, ih]

theorem handle_tools_ok_shape
    (jsonLoads : String → Except PyError (List (String × PyValue)))
    (s : AssistantState) (message : ChatCompletionMessage)
    (a : AnswerDict) (s2 : AssistantState)
    (h : handle_tools jsonLoads s message = (Except.ok a, s2)) :
    s2.history = s.history ∨
    ∃ cid name args ty ans, s2.history = s.history ++
      [Turn.assistantToolCall cid name args ty, Turn.toolResult ans name cid] := by
  cases hga : get_attributes_from_tool_call_message jsonLoads message with
  | error e => simp [handle_tools, hga] at h
  | ok quad =>
    obtain ⟨otc, fn, args, argstr⟩ := quad
    cases otc with
    | none =>
      simp [handle_tools, hga] at h
      left
      rw [← h.2]
    | some tc =>
      cases hlt : lookupStr s.tools fn with
      | none => simp [handle_tools, hga, hlt] at h
      | some tool =>
        cases hrun : tool.run_tool args with
        | error e => simp [handle_tools, hga, hlt, hrun] at h
        | ok ans =>
          simp [handle_tools, hga, hlt, hrun] at h
          right
          refine ⟨tc.id, fn, argstr, tc.type, ans, ?_⟩
          rw [← h.2]

theorem chat_with_tool_ok_block
    (jsonLoads : String → Except PyError (List (String × PyValue)))
    (oc : String → List Turn → ChatResponse) (s : AssistantState) (m : String)
    (hok : (chat_with_tool jsonLoads oc s m).1 = Except.ok ()) :
    ∃ g, (chat_with_tool jsonLoads oc s m).2.history = s.history ++ Turn.user m :: g ∧
      wellPaired (Turn.user m :: g) = true := by
  revert hok
  simp only [chat_with_tool]
  split
  · intro hok
    simp at hok
  · rename_i choice rest heq
    split
    · split
      · rename_i e s2 hh
        intro hok
        simp at hok
      · rename_i a s2 hh
        intro _
        rcases handle_tools_ok_shape jsonLoads _ choice.message a s2 hh
          with hsame | ⟨cid, n, ar, ty, ans, hl⟩
        · refine ⟨[], ?_, rfl⟩
          rw [hsame]
        · refine ⟨[Turn.assistantToolCall cid n ar ty, Turn.toolResult ans n cid], ?_, ?_⟩
          · rw [hl]
            simp
          · simp [wellPaired, noToolResultBeforeUser]
    · intro _
      refine ⟨[Turn.assistant choice.message.content], ?_, rfl⟩
      simp

/-- C2 (amended): (i) across every sequence of `chat_with_tool` submissions
in which each call returns normally, the pairing invariant holds of the
resulting history: every assistant turn carrying a tool-call descriptor with
call id `X` is immediately followed by exactly one tool turn with
`tool_call_id = X` before any subsequent user turn; (ii) whenever
`handle_tools` returns, the history either gained nothing or gained the
assistant tool-call turn followed by the matching tool-result turn, appended
in that order before the return.  (A call that raises on an unknown tool or
a failing tool execution can leave an unpaired tool-call turn — see the
counterexample.) -/
theorem tool_call_pairing :
    (∀ (jsonLoads : String → Except PyError (List (String × PyValue)))
       (oc : String → List Turn → ChatResponse)
       (s : AssistantState) (msgs : List String),
        wellPaired s.history = true → allOk jsonLoads oc s msgs →
        wellPaired (runChats jsonLoads oc s msgs).history = true) ∧
    (∀ (jsonLoads : String → Except PyError (List (String × PyValue)))
       (s : AssistantState) (message : ChatCompletionMessage)
       (a : AnswerDict) (s2 : AssistantState),
        handle_tools jsonLoads s message = (Except.ok a, s2) →
        s2.history = s.history ∨
        ∃ cid name args ty ans, s2.history = s.history ++
          [Turn.assistantToolCall cid name args ty, Turn.toolResult ans name cid]) := by
  constructor
  · intro j oc s msgs
    induction msgs generalizing s with
    | nil =>
      intro hw _
      simpa [runChats] using hw
    | cons m ms ih =>
      intro hw hok
      simp only [allOk] at hok
      obtain ⟨h1, h2⟩ := hok
      obtain ⟨g, hg, hwp⟩ := chat_with_tool_ok_block j oc s m h1
      rw [runChats]
      apply ih _ ?_ h2
      rw [hg, wellPaired_append_user, hw, hwp]
      rfl
  · intro j s msg a s2 h
    exact handle_tools_ok_shape j s msg a s2 h

/-- C2 witness: the sequence part applied to a concrete one-message session
against the plain-text endpoint. -/
theorem tool_call_pairing_witness :
    wellPaired (runChats jsonLoads0 ocStop emptyAssistant [ "hi"]).history = true :=
  tool_call_pairing.1 jsonLoads0 ocStop emptyAssistant [ "hi"] rfl ⟨rfl, trivial⟩

/-- C2 counterexample: one submission for which the model requests the
unknown tool "ghost" leaves the history ending in an assistant tool-call
turn with no following tool turn — a dispatch-core-produced history
violating the pairing invariant, refuting the claim for arbitrary call
sequences. -/
theorem tool_call_pairing_counterexample :
    (runChats jsonLoads0 ocGhost emptyAssistant [ "please"]).history =
      [Turn.user ( "please"), Turn.assistantToolCall ( "c1") "ghost" "\x7b\x7d" "function"] ∧
    wellPaired
      [Turn.user ( "please"), Turn.assistantToolCall ( "c1") "ghost" "\x7b\x7d" "function"] = false :=
  ⟨rfl, rfl⟩

end AIAssistant
